import Mathlib

/-!
Shallow embedding of the core of the robot platformer (src/main.py) and
proofs about its per-tick physics, collision resolution, scrolling,
level construction and session state handling.

Coordinates follow the pygame convention: `Rect` stores the top-left
corner plus width and height, the y axis grows downward, and two rects
collide exactly when they strictly overlap on both axes (touching edges
do not collide).  Rect coordinates are integers; assigning a fractional
value truncates toward zero, which we model with `ratTrunc`.
-/

namespace Platformer

/-- Game constants from `Settings.__init__` in src/main.py. -/
def SCREEN_WIDTH : Int := 850

def SCREEN_HEIGHT : Int := 500

def player_speed : Int := 5

def PLAYER_LIVES : Int := 5

def BLOCK_SIZE : Int := 50

def enemy_speed : Int := 3

def ENEMY_POINTS : Int := 200

def COIN_POINTS : Int := 100

def LEFT_SCREEN_LIMIT : Int := 100

def RIGHT_SCREEN_LIMIT : Int := SCREEN_WIDTH - 200

/-- A pygame rectangle: top-left corner, width and height. -/
structure Rect where
  x : Int
  y : Int
  w : Int
  h : Int
deriving DecidableEq, Repr

def Rect.left (r : Rect) : Int := r.x

def Rect.right (r : Rect) : Int := r.x + r.w

def Rect.top (r : Rect) : Int := r.y

def Rect.bottom (r : Rect) : Int := r.y + r.h

/-- Strict-overlap test of `pygame.Rect.colliderect`: rectangles that merely
touch along an edge do not collide. -/
def collideRect (a b : Rect) : Bool :=
  decide (a.x < b.x + b.w ∧ b.x < a.x + a.w ∧ a.y < b.y + b.h ∧ b.y < a.y + a.h)

/-- Truncation toward zero, the conversion pygame applies when a fractional
value is assigned to an integer rect coordinate. -/
def ratTrunc (q : ℚ) : Int := if 0 ≤ q then q.floor else q.ceil

/-- The player body from class `Player`: rect, movement-intent flags, ground
flag, horizontal speed (integer) and vertical speed (fractional, since
gravity adds 0.7 per tick). -/
structure Player where
  rect : Rect
  moving_right : Bool
  moving_left : Bool
  on_ground : Bool
  change_x : Int
  change_y : ℚ
deriving DecidableEq, Repr

/-- `Player._change_speed`: horizontal speed is recomputed each tick from the
movement flags. -/
def Player.changeSpeed (p : Player) : Player :=
  if p.moving_left && !p.moving_right then { p with change_x := -player_speed }
  else if p.moving_right && !p.moving_left then { p with change_x := player_speed }
  else { p with change_x := 0 }

/-- `Player._apply_gravity`: vertical speed grows by 0.7 every tick. -/
def Player.applyGravity (p : Player) : Player :=
  { p with change_y := p.change_y + 7 / 10 }

/-- The horizontal move `rect.x += change_x` in `Player.update`. -/
def Player.moveX (p : Player) : Player :=
  { p with rect := { p.rect with x := p.rect.x + p.change_x } }

/-- The vertical move `rect.y += change_y` in `Player.update`; the fractional
sum is truncated toward zero when stored back into the integer rect. -/
def Player.moveY (p : Player) : Player :=
  { p with rect := { p.rect with y := ratTrunc ((p.rect.y : ℚ) + p.change_y) } }

/-- One step of the loop body of `Player._check_horizontal_collisions`: clamp
the offending edge of the player to the platform that was hit. -/
def hClampStep (q : Player) (plat : Rect) : Player :=
  if 0 < q.change_x then { q with rect := { q.rect with x := plat.x - q.rect.w } }
  else if q.change_x < 0 then { q with rect := { q.rect with x := plat.x + plat.w } }
  else q

/-- `Player._check_horizontal_collisions`: the list of hit platforms is
computed once from the current rect, then each hit clamps the player. -/
def Player.checkHorizontalCollisions (p : Player) (platforms : List Rect) : Player :=
  (platforms.filter (fun r => collideRect p.rect r)).foldl hClampStep p

/-- One step of the loop body of `Player._check_vertical_collisions`: clamp
bottom to the platform top when falling (setting the ground flag), clamp top
to the platform bottom when rising, and zero the vertical speed afterwards. -/
def vClampStep (q : Player) (plat : Rect) : Player :=
  let q1 :=
    if 0 < q.change_y then
      { q with rect := { q.rect with y := plat.y - q.rect.h }, on_ground := true }
    else if q.change_y < 0 then
      { q with rect := { q.rect with y := plat.y + plat.h } }
    else q
  { q1 with change_y := 0 }

/-- `Player._check_vertical_collisions`: the list of hit platforms is computed
once from the current rect, then each hit runs the clamp step. -/
def Player.checkVerticalCollisions (p : Player) (platforms : List Rect) : Player :=
  (platforms.filter (fun r => collideRect p.rect r)).foldl vClampStep p

/-- The first phase of `Player.update`: recompute horizontal speed, apply
gravity, and apply the horizontal move. -/
def playerPhase1 (p : Player) : Player :=
  (p.changeSpeed.applyGravity).moveX

/-- The state of the player after horizontal collision resolution inside
`Player.update`. -/
def playerPhase2 (p : Player) (platforms : List Rect) : Player :=
  (playerPhase1 p).checkHorizontalCollisions platforms

/-- The state of the player after the ground flag is reset and the vertical
move is applied, just before vertical collision resolution. -/
def playerPhase3 (p : Player) (platforms : List Rect) : Player :=
  ({ playerPhase2 p platforms with on_ground := false }).moveY

/-- `Player.update`: horizontal phase, ground-flag reset, vertical move, then
vertical collision resolution. -/
def playerUpdate (p : Player) (platforms : List Rect) : Player :=
  (playerPhase3 p platforms).checkVerticalCollisions platforms

/-- The platforms hit during horizontal resolution of a tick (the list built
by `spritecollide` after the horizontal move). -/
def hHits (p : Player) (platforms : List Rect) : List Rect :=
  platforms.filter (fun r => collideRect (playerPhase1 p).rect r)

/-- The platforms hit during vertical resolution of a tick (the list built by
`spritecollide` after the vertical move). -/
def vHits (p : Player) (platforms : List Rect) : List Rect :=
  platforms.filter (fun r => collideRect (playerPhase3 p platforms).rect r)

/-- `Player.jump`: only from the ground, with the fixed impulse -15. -/
def Player.jump (p : Player) : Player :=
  if p.on_ground then { p with change_y := -15, on_ground := false } else p

/-- `Player.bounce`: the stomp reaction, with the smaller fixed impulse -7. -/
def Player.bounce (p : Player) : Player :=
  if !p.on_ground then { p with change_y := -7 } else p

/-- `Player.set_bottomleft`. -/
def Player.setBottomleft (p : Player) (c : Int × Int) : Player :=
  { p with rect := { p.rect with x := c.1, y := c.2 - p.rect.h } }

/-- An enemy from class `Enemy`: rect, current horizontal speed, and the
pixel threshold below which a contact counts as hitting its head. -/
structure Enemy where
  rect : Rect
  change_x : Int
  top_limit : Int
deriving DecidableEq, Repr

/-- A level from class `Level`: the sprite groups, the single optional door,
the recorded player start position, the cumulative shift accumulator, and
the level width computed by `_create`. -/
structure Level where
  platforms : List Rect
  coins : List Rect
  enemies : List Enemy
  platform_limits : List Rect
  door : Option Rect
  player_start_pos : Int × Int
  level_shift : Int
  level_size : Int
deriving DecidableEq, Repr

/-- Translate a rect horizontally. -/
def shiftRect (s : Int) (r : Rect) : Rect := { r with x := r.x + s }

/-- Translate an enemy horizontally. -/
def shiftEnemy (s : Int) (e : Enemy) : Enemy := { e with rect := shiftRect s e.rect }

/-- `Level.shift_level`: add the shift to the accumulator and to the x
coordinate of the start position and of every platform, coin, enemy, limit
and the door.  Dereferencing `door.sprite` fails when the door group is
empty, which we model by returning `none`. -/
def shiftLevel (lvl : Level) (shift_x : Int) : Option Level :=
  match lvl.door with
  | none => none
  | some d =>
    some { platforms := lvl.platforms.map (shiftRect shift_x)
           coins := lvl.coins.map (shiftRect shift_x)
           enemies := lvl.enemies.map (shiftEnemy shift_x)
           platform_limits := lvl.platform_limits.map (shiftRect shift_x)
           door := some (shiftRect shift_x d)
           player_start_pos := (lvl.player_start_pos.1 + shift_x, lvl.player_start_pos.2)
           level_shift := lvl.level_shift + shift_x
           level_size := lvl.level_size }

/-- The statistics from class `GameStats`. -/
structure GameStats where
  lives_left : Int
  score : Int
  level : Nat
deriving DecidableEq, Repr

/-- `GameStats.reset_statistics`. -/
def resetStatistics (g : GameStats) : GameStats :=
  { g with lives_left := PLAYER_LIVES, score := 0, level := 0 }

/-- The mutable state of class `Platformer` that the interaction resolver
touches: statistics, the activity flags, the player and the current level. -/
structure Session where
  stats : GameStats
  game_active : Bool
  game_over : Bool
  player : Player
  level : Level
deriving DecidableEq, Repr

/-- `Platformer._show_game_over`. -/
def showGameOver (s : Session) : Session := { s with game_over := true }

/-- `Platformer._player_hit`: decrement a life and respawn while more than
one life is left, otherwise show the game over screen. -/
def playerHit (s : Session) : Session :=
  if 1 < s.stats.lives_left then
    { s with
      stats := { s.stats with lives_left := s.stats.lives_left - 1 }
      player := s.player.setBottomleft s.level.player_start_pos }
  else showGameOver s

/-- `Platformer._enemy_hit`: bounce the player, award the enemy points and
remove the stomped enemy from the level. -/
def enemyHit (s : Session) (e : Enemy) : Session :=
  { s with
    player := s.player.bounce
    stats := { s.stats with score := s.stats.score + ENEMY_POINTS }
    level := { s.level with enemies := s.level.enemies.erase e } }

/-- `Platformer._check_player_enemy_collisions`.  The pixel-mask collision
test depends on the loaded sprite images, so it is passed in as the oracle
`contact`, which returns the collision point (relative to the enemy top
left) of the player mask against a given enemy, if any.  The first enemy
reported as colliding is classified: a contact at or above the top limit
while the player descends is a stomp, anything else damages the player. -/
def checkPlayerEnemyCollisions (contact : Enemy → Option (Int × Int))
    (s : Session) : Session :=
  match s.level.enemies.find? (fun en => (contact en).isSome) with
  | none => s
  | some e =>
    match contact e with
    | none => s
    | some pt =>
      if pt.2 ≤ e.top_limit ∧ 0 < s.player.change_y then enemyHit s e
      else playerHit s

/-- `Platformer._check_player_coin_collisions`.  The mask collision against
the player is the oracle `coinHit`.  `spritecollide` with `dokill = True`
removes every colliding coin from the group and returns them; the loop then
awards the coin points once per returned coin. -/
def checkPlayerCoinCollisions (coinHit : Rect → Bool) (s : Session) : Session :=
  let hits := s.level.coins.filter coinHit
  { s with
    level := { s.level with coins := s.level.coins.filter (fun c => !coinHit c) }
    stats := { s.stats with score := s.stats.score + COIN_POINTS * hits.length } }

/-- `Platformer._check_player_screen_collisions`: falling to the bottom of
the screen counts as a hit. -/
def checkPlayerScreenCollisions (s : Session) : Session :=
  if SCREEN_HEIGHT ≤ s.player.rect.bottom then playerHit s else s

/-- `Platformer._update_level_shift`: when the player crosses the right (or
else the left) screen limit, the offending edge is clamped to the limit and
the whole level is shifted by the opposite of the overflow.  The shift can
fail when the level has no door, hence the optional result. -/
def updateLevelShift (p : Player) (lvl : Level) : Option (Player × Level) :=
  if RIGHT_SCREEN_LIMIT ≤ p.rect.right then
    let diff := p.rect.right - RIGHT_SCREEN_LIMIT
    let p2 := { p with rect := { p.rect with x := RIGHT_SCREEN_LIMIT - p.rect.w } }
    (shiftLevel lvl (-diff)).map (fun l => (p2, l))
  else if p.rect.left ≤ LEFT_SCREEN_LIMIT then
    let diff := LEFT_SCREEN_LIMIT - p.rect.left
    let p2 := { p with rect := { p.rect with x := LEFT_SCREEN_LIMIT } }
    (shiftLevel lvl diff).map (fun l => (p2, l))
  else some (p, lvl)

/-- A platform block of size `BLOCK_SIZE` placed by its bottom-left corner,
as in `Level._create_platform` and `Level._create_platform_limit`. -/
def blockAt (pos : Int × Int) : Rect :=
  { x := pos.1, y := pos.2 - BLOCK_SIZE, w := BLOCK_SIZE, h := BLOCK_SIZE }

/-- A 30 by 30 coin centered on the middle of the grid cell, as in
`Level._create_coin` (the image is scaled to 30 by 30 and `set_center` is
called with the cell center). -/
def coinAt (pos : Int × Int) : Rect :=
  { x := pos.1 + BLOCK_SIZE / 2 - 15, y := pos.2 - BLOCK_SIZE / 2 - 15, w := 30, h := 30 }

/-- An enemy placed by its bottom-left corner, as in `Level._create_enemy`.
The sprite size comes from the monster image asset and is a parameter. -/
def enemyAt (ew eh : Int) (pos : Int × Int) : Enemy :=
  { rect := { x := pos.1, y := pos.2 - eh, w := ew, h := eh }
    change_x := enemy_speed
    top_limit := 15 }

/-- A door placed by its bottom-left corner, as in `Level._create_door`.
The sprite size comes from the door image asset and is a parameter. -/
def doorAt (dw dh : Int) (pos : Int × Int) : Rect :=
  { x := pos.1, y := pos.2 - dh, w := dw, h := dh }

/-- The level every construction starts from: empty groups, no door, start
position (0, 0) and zero shift (`Level.__init__`). -/
def emptyLevel : Level :=
  { platforms := [], coins := [], enemies := [], platform_limits := []
    door := none, player_start_pos := (0, 0), level_shift := 0, level_size := 0 }

/-- One cell of `Level._create`: dispatch on the pattern character at the
given bottom-left position.  An `E` cell also spawns a coin; any character
outside the alphabet only adds padding. -/
def processCell (ew eh dw dh : Int) (lvl : Level) (pos : Int × Int) (c : Char) : Level :=
  if c = 'X' then { lvl with platforms := lvl.platforms ++ [blockAt pos] }
  else if c = 'E' then
    { lvl with
      enemies := lvl.enemies ++ [enemyAt ew eh pos]
      coins := lvl.coins ++ [coinAt pos] }
  else if c = 'C' then { lvl with coins := lvl.coins ++ [coinAt pos] }
  else if c = '#' then { lvl with platform_limits := lvl.platform_limits ++ [blockAt pos] }
  else if c = 'P' then { lvl with player_start_pos := pos }
  else if c = 'D' then { lvl with door := some (doorAt dw dh pos) }
  else lvl

/-- One row of `Level._create`: cells are laid out left to right, advancing
the x coordinate by one block per character. -/
def processRow (ew eh dw dh : Int) (y : Int) (lvl : Level) (row : String) : Level :=
  (row.toList.foldl
    (fun acc c => (processCell ew eh dw dh acc.1 (acc.2, y) c, acc.2 + BLOCK_SIZE))
    (lvl, 0)).1

/-- The row loop of `Level._create`: rows are consumed in reverse, starting
at the bottom of the screen and moving up one block per row. -/
def processPattern (ew eh dw dh : Int) (pattern : List String) : Level :=
  (pattern.reverse.foldl
    (fun acc row => (processRow ew eh dw dh acc.2 acc.1 row, acc.2 - BLOCK_SIZE))
    (emptyLevel, SCREEN_HEIGHT)).1

/-- The wall of blocks on the left of the level built by
`Level._add_level_limits`: columns at -100 and -50, ten rows from the bottom
of the screen up. -/
def leftLimitBlocks : List Rect :=
  (List.range 10).flatMap (fun (j : ℕ) =>
    (List.range 2).map (fun (i : ℕ) =>
      blockAt (-LEFT_SCREEN_LIMIT + BLOCK_SIZE * (i : Int),
               SCREEN_HEIGHT - BLOCK_SIZE * (j : Int))))

/-- The wall of blocks on the right of the level built by
`Level._add_level_limits`: thirteen columns starting exactly at
`level_size`, ten rows from the bottom of the screen up. -/
def rightLimitBlocks (size : Int) : List Rect :=
  (List.range 10).flatMap (fun (j : ℕ) =>
    (List.range 13).map (fun (i : ℕ) =>
      blockAt (size + BLOCK_SIZE * (i : Int),
               SCREEN_HEIGHT - BLOCK_SIZE * (j : Int))))

/-- `Level._create`: build the pattern cells, record the level size computed
from the number of characters of the last row, and append the boundary
walls, the right one positioned at the level size. -/
def createLevel (ew eh dw dh : Int) (pattern : List String) : Level :=
  let base := processPattern ew eh dw dh pattern
  let size := BLOCK_SIZE * ((pattern.getLastD "").length : Int)
  { base with
    platforms := base.platforms ++ leftLimitBlocks ++ rightLimitBlocks size
    level_size := size }

/-- The layout of the main menu level (`MainMenu.__init__`); it contains no
door cell. -/
def mainMenuPattern : List String :=
  ["X_______________X",
   "XX______P______XX",
   "XXXXXXXXXXXXXXXXX"]

/-- Modelled from the spec: the level width the specification describes,
namely the length of the longest row of the pattern multiplied by the block
size.  Kept only to compare against the width the code actually computes. -/
def longestRowSize (pattern : List String) : Int :=
  BLOCK_SIZE * ((pattern.map (fun r => (r.length : Int))).foldl max 0)

/-! ### Helper lemmas about the collision-resolution folds -/

theorem hClampStep_change_x (q : Player) (r : Rect) :
    (hClampStep q r).change_x = q.change_x := by
  unfold hClampStep
  split
  · rfl
  · split <;> rfl

theorem foldl_hClampStep_change_x (l : List Rect) (q : Player) :
    (l.foldl hClampStep q).change_x = q.change_x := by
  induction l generalizing q with
  | nil => rfl
  | cons a t ih => rw [List.foldl_cons, ih, hClampStep_change_x]

theorem hClampStep_no_overlap (q : Player) (r : Rect) (h : q.change_x ≠ 0) :
    collideRect (hClampStep q r).rect r = false := by
  unfold hClampStep
  rcases lt_trichotomy q.change_x 0 with hlt | heq | hgt
  · rw [if_neg (by omega), if_pos hlt]
    simp only [collideRect, decide_eq_false_iff_not]
    rintro ⟨h1, -, -, -⟩
    omega
  · exact absurd heq h
  · rw [if_pos hgt]
    simp only [collideRect, decide_eq_false_iff_not]
    rintro ⟨-, h2, -, -⟩
    omega

theorem vClampStep_change_y (q : Player) (r : Rect) :
    (vClampStep q r).change_y = 0 := rfl

theorem vClampStep_of_zero (q : Player) (r : Rect) (h : q.change_y = 0) :
    vClampStep q r = q := by
  unfold vClampStep
  rw [h]
  simp only [lt_self_iff_false, if_false]
  cases q with
  | mk rect mr ml og cx cy => simp_all

theorem foldl_vClampStep_of_zero (l : List Rect) (q : Player) (h : q.change_y = 0) :
    l.foldl vClampStep q = q := by
  induction l with
  | nil => rfl
  | cons a t ih => rw [List.foldl_cons, vClampStep_of_zero q a h, ih]

theorem vClampStep_no_overlap (q : Player) (r : Rect) (h : q.change_y ≠ 0) :
    collideRect (vClampStep q r).rect r = false := by
  unfold vClampStep
  rcases lt_trichotomy q.change_y 0 with hlt | heq | hgt
  · rw [if_neg (by exact not_lt.2 hlt.le), if_pos hlt]
    simp only [collideRect, decide_eq_false_iff_not]
    rintro ⟨-, -, h3, -⟩
    omega
  · exact absurd heq h
  · rw [if_pos hgt]
    simp only [collideRect, decide_eq_false_iff_not]
    rintro ⟨-, -, -, h4⟩
    omega

theorem playerPhase3_on_ground (p : Player) (plats : List Rect) :
    (playerPhase3 p plats).on_ground = false := rfl

theorem foldl_vClampStep_ground_inv (l : List Rect) (q : Player)
    (h : q.on_ground = true → q.change_y = 0) :
    (l.foldl vClampStep q).on_ground = true → (l.foldl vClampStep q).change_y = 0 := by
  induction l generalizing q with
  | nil => exact h
  | cons a t ih =>
    rw [List.foldl_cons]
    exact ih (vClampStep q a) (fun _ => vClampStep_change_y q a)

theorem playerUpdate_ground_change_y (p : Player) (plats : List Rect) :
    (playerUpdate p plats).on_ground = true → (playerUpdate p plats).change_y = 0 := by
  refine foldl_vClampStep_ground_inv _ _ (fun hog => ?_)
  rw [playerPhase3_on_ground] at hog
  cases hog

theorem updateLevelShift_preserves (p : Player) (lvl : Level) (p2 : Player) (lvl2 : Level)
    (h : updateLevelShift p lvl = some (p2, lvl2)) :
    p2.change_y = p.change_y ∧ p2.on_ground = p.on_ground := by
  unfold updateLevelShift at h
  split at h
  · simp only [Option.map_eq_some'] at h
    obtain ⟨l, -, heq⟩ := h
    injection heq with h1 h2
    rw [← h1]
    exact ⟨rfl, rfl⟩
  · split at h
    · simp only [Option.map_eq_some'] at h
      obtain ⟨l, -, heq⟩ := h
      injection heq with h1 h2
      rw [← h1]
      exact ⟨rfl, rfl⟩
    · cases h
      exact ⟨rfl, rfl⟩

/-! ### Claims about lives and the damage routine -/

/-- C1 counterexample: the claim says a damage event always decrements
`lives` and that reaching 0 triggers game over; on a session with a single
life left, `_player_hit` does not decrement at all (lives stay at 1) while
still transitioning to game over. -/
theorem playerHit_no_decrement_at_one_life :
    (let s : Session :=
      { stats := { lives_left := 1, score := 0, level := 0 }
        game_active := true
        game_over := false
        player := { rect := ⟨0, 0, 10, 10⟩, moving_right := false, moving_left := false,
                    on_ground := false, change_x := 0, change_y := 0 }
        level := emptyLevel }
     (playerHit s).stats.lives_left = 1 ∧
       ¬(playerHit s).stats.lives_left = 1 - 1 ∧ (playerHit s).game_over = true) := by
  decide

/-- C1 (amended): a damage event decrements `lives` only when more than one
life is left, in which case the player is repositioned to the level's
recorded spawn point and the session stays in its current state; with
exactly one life left, the session transitions to game over without
decrementing, so `lives` never reaches 0. -/
theorem playerHit_branch_behavior (s : Session) :
    (1 < s.stats.lives_left →
      (playerHit s).stats.lives_left = s.stats.lives_left - 1 ∧
      (playerHit s).player = s.player.setBottomleft s.level.player_start_pos ∧
      (playerHit s).game_over = s.game_over) ∧
    (s.stats.lives_left = 1 →
      (playerHit s).game_over = true ∧
      (playerHit s).stats.lives_left = 1) := by
  constructor
  · intro h
    rw [playerHit, if_pos h]
    exact ⟨rfl, rfl, rfl⟩
  · intro h
    rw [playerHit, if_neg (by omega)]
    exact ⟨rfl, h ▸ rfl⟩

/-- C1 witness: both branches of the amended claim at concrete sessions. -/
theorem playerHit_branch_behavior_witness :
    (let s5 : Session :=
      { stats := { lives_left := 5, score := 0, level := 0 }
        game_active := true
        game_over := false
        player := { rect := ⟨7, 8, 10, 10⟩, moving_right := false, moving_left := false,
                    on_ground := false, change_x := 0, change_y := 0 }
        level := { emptyLevel with player_start_pos := (50, 450) } }
     (playerHit s5).stats.lives_left = 5 - 1 ∧
       (playerHit s5).player = s5.player.setBottomleft s5.level.player_start_pos ∧
       (playerHit s5).game_over = s5.game_over) := by
  exact (playerHit_branch_behavior _).1 (by decide)

/-- C10: `lives_left` starts at 5 after a reset, a damage event decrements
it only when it is above 1, a damage event at exactly 1 transitions to game
over without decrementing, and the `lives_left ≥ 1` invariant is preserved
by every damage event. -/
theorem lives_left_ge_one_invariant (g : GameStats) (s : Session) :
    (resetStatistics g).lives_left = 5 ∧
    (1 < s.stats.lives_left →
      (playerHit s).stats.lives_left = s.stats.lives_left - 1) ∧
    (s.stats.lives_left = 1 →
      (playerHit s).stats.lives_left = 1 ∧ (playerHit s).game_over = true) ∧
    (1 ≤ s.stats.lives_left → 1 ≤ (playerHit s).stats.lives_left) := by
  refine ⟨rfl, fun h => ?_, fun h => ?_, fun h => ?_⟩
  · rw [playerHit, if_pos h]
  · rw [playerHit, if_neg (by omega)]
    exact ⟨h ▸ rfl, rfl⟩
  · rw [playerHit]
    split
    · simp only []
      omega
    · exact h

/-- C10 witness: the invariant facts at a concrete one-life session. -/
theorem lives_left_ge_one_invariant_witness :
    (let s : Session :=
      { stats := { lives_left := 1, score := 300, level := 0 }
        game_active := true
        game_over := false
        player := { rect := ⟨3, 4, 10, 10⟩, moving_right := false, moving_left := false,
                    on_ground := false, change_x := 0, change_y := 0 }
        level := emptyLevel }
     ((playerHit s).stats.lives_left = 1 ∧ (playerHit s).game_over = true) ∧
       1 ≤ (playerHit s).stats.lives_left) := by
  exact ⟨(lives_left_ge_one_invariant ⟨5, 0, 0⟩ _).2.2.1 rfl,
         (lives_left_ge_one_invariant ⟨5, 0, 0⟩ _).2.2.2 (by decide)⟩

/-! ### Claims about coin collection -/

/-- C8: the coin step removes every colliding coin and awards the points in
the same atomic step (the score delta is the coin value times the number of
coins removed), the coin collection only ever shrinks (it remains a
sublist), no colliding coin survives, and the step is idempotent: running
the same collision check again on the resulting session changes nothing, so
the same coin instance can never be awarded twice. -/
theorem coin_collection_idempotent_shrinks (coinHit : Rect → Bool) (s : Session) :
    (checkPlayerCoinCollisions coinHit s).level.coins.Sublist s.level.coins ∧
    ((checkPlayerCoinCollisions coinHit s).level.coins.all fun c => !coinHit c) = true ∧
    (checkPlayerCoinCollisions coinHit s).stats.score =
      s.stats.score +
        COIN_POINTS * ((s.level.coins.length : Int) -
          ((checkPlayerCoinCollisions coinHit s).level.coins.length : Int)) ∧
    checkPlayerCoinCollisions coinHit (checkPlayerCoinCollisions coinHit s) =
      checkPlayerCoinCollisions coinHit s := by
  refine ⟨List.filter_sublist _, ?_, ?_, ?_⟩
  · simp only [checkPlayerCoinCollisions, List.all_eq_true, List.mem_filter]
    intro c hc
    exact hc.2
  · show s.stats.score + COIN_POINTS * ((s.level.coins.filter coinHit).length : Int) =
      s.stats.score + COIN_POINTS *
        ((s.level.coins.length : Int) - ((s.level.coins.filter (fun c => !coinHit c)).length : Int))
    have hsplit := List.length_eq_length_filter_add (l := s.level.coins) coinHit
    simp only [COIN_POINTS]
    omega
  · have hfilter : (s.level.coins.filter (fun c => !coinHit c)).filter
        (fun c => !coinHit c) = s.level.coins.filter (fun c => !coinHit c) := by
      rw [List.filter_filter]
      congr 1
      funext c
      cases coinHit c <;> rfl
    have hhits : (s.level.coins.filter (fun c => !coinHit c)).filter coinHit = [] := by
      rw [List.filter_filter]
      have : (fun c => coinHit c && !coinHit c) = (fun _ : Rect => false) := by
        funext c
        cases coinHit c <;> rfl
      rw [this, List.filter_false]
    unfold checkPlayerCoinCollisions
    simp [hfilter, hhits]

/-! ### Claims about the player-enemy interaction -/

/-- C2: a mask contact whose point sits at or above the enemy head threshold
while the player descends is always resolved as a stomp — the enemy is
removed (the collection shrinks by one), the enemy points are awarded, the
stomp bounce is applied to the player and no life is lost; any other
contact is always resolved as damage — the damage routine runs, no enemy is
removed and no points are awarded. -/
theorem enemy_collision_stomp_or_damage (contact : Enemy → Option (Int × Int))
    (s : Session) (e : Enemy) (pt : Int × Int)
    (hfind : s.level.enemies.find? (fun en => (contact en).isSome) = some e)
    (hcontact : contact e = some pt) :
    ((pt.2 ≤ e.top_limit ∧ 0 < s.player.change_y) →
      checkPlayerEnemyCollisions contact s = enemyHit s e ∧
      (checkPlayerEnemyCollisions contact s).level.enemies = s.level.enemies.erase e ∧
      (checkPlayerEnemyCollisions contact s).level.enemies.length + 1 =
        s.level.enemies.length ∧
      (checkPlayerEnemyCollisions contact s).stats.score = s.stats.score + ENEMY_POINTS ∧
      (checkPlayerEnemyCollisions contact s).player = s.player.bounce ∧
      (checkPlayerEnemyCollisions contact s).stats.lives_left = s.stats.lives_left ∧
      (checkPlayerEnemyCollisions contact s).game_over = s.game_over) ∧
    ((e.top_limit < pt.2 ∨ s.player.change_y ≤ 0) →
      checkPlayerEnemyCollisions contact s = playerHit s ∧
      (checkPlayerEnemyCollisions contact s).level.enemies = s.level.enemies ∧
      (checkPlayerEnemyCollisions contact s).stats.score = s.stats.score) := by
  have hmem : e ∈ s.level.enemies := List.mem_of_find?_eq_some hfind
  constructor
  · intro hcond
    have hres : checkPlayerEnemyCollisions contact s = enemyHit s e := by
      unfold checkPlayerEnemyCollisions
      simp only [hfind, hcontact]
      rw [if_pos hcond]
    refine ⟨hres, ?_, ?_, ?_, ?_, ?_, ?_⟩ <;> rw [hres]
    · rfl
    · exact List.length_erase_add_one hmem
    · rfl
    · rfl
    · rfl
    · rfl
  · intro hcond
    have hres : checkPlayerEnemyCollisions contact s = playerHit s := by
      unfold checkPlayerEnemyCollisions
      simp only [hfind, hcontact]
      rw [if_neg ?_]
      rintro ⟨h1, h2⟩
      rcases hcond with h | h
      · omega
      · exact absurd h2 (not_lt.2 h)
    refine ⟨hres, ?_, ?_⟩ <;> rw [hres, playerHit] <;> split <;> rfl

/-- C2 witness: a concrete descending contact on the enemy head is resolved
as a stomp with all the stomp effects. -/
theorem enemy_collision_stomp_or_damage_witness :
    (let e : Enemy := { rect := ⟨40, 40, 8, 8⟩, change_x := 3, top_limit := 15 }
     let s : Session :=
      { stats := { lives_left := 5, score := 0, level := 0 }
        game_active := true
        game_over := false
        player := { rect := ⟨40, 20, 10, 10⟩, moving_right := false, moving_left := false,
                    on_ground := false, change_x := 0, change_y := 2 }
        level := { emptyLevel with enemies := [e] } }
     let contact : Enemy → Option (Int × Int) := fun _ => some (2, 10)
     checkPlayerEnemyCollisions contact s = enemyHit s e ∧
       (checkPlayerEnemyCollisions contact s).level.enemies = s.level.enemies.erase e ∧
       (checkPlayerEnemyCollisions contact s).level.enemies.length + 1 =
         s.level.enemies.length ∧
       (checkPlayerEnemyCollisions contact s).stats.score = s.stats.score + ENEMY_POINTS ∧
       (checkPlayerEnemyCollisions contact s).player = s.player.bounce ∧
       (checkPlayerEnemyCollisions contact s).stats.lives_left = s.stats.lives_left ∧
       (checkPlayerEnemyCollisions contact s).game_over = s.game_over) := by
  exact (enemy_collision_stomp_or_damage _ _ _ _ (by decide) rfl).1 (by norm_num)

/-! ### Claims about level shifting -/

/-- C9: shifting a level is only total when the level has a door — on every
level whose door group is empty the shift fails for any amount, and the
main menu layout produces exactly such a level since its pattern has no
door cell. -/
theorem shiftLevel_requires_door :
    (∀ (lvl : Level), lvl.door = none → ∀ s : Int, shiftLevel lvl s = none) ∧
    (∀ ew eh dw dh : Int, (createLevel ew eh dw dh mainMenuPattern).door = none) := by
  constructor
  · intro lvl h s
    unfold shiftLevel
    rw [h]
  · intro ew eh dw dh
    rfl

/-- C9 witness: the concrete main menu level rejects a concrete shift. -/
theorem shiftLevel_requires_door_witness :
    shiftLevel (createLevel 1 1 1 1 mainMenuPattern) 7 = none := by
  exact shiftLevel_requires_door.1 _ (shiftLevel_requires_door.2 1 1 1 1) 7

/-- C4: whenever the scroll controller fires — the player's right edge has
reached the right screen limit, or else its left edge has reached the left
one — and the level has a door, the offending edge is clamped exactly to
the limit and every platform, coin, enemy, patrol limit, the door and the
recorded start position are all translated by the same overflow amount `sh`
in that same tick, with the shift accumulator increased by `sh`. -/
theorem scroll_shift_atomic (p : Player) (lvl : Level) (d : Rect)
    (hdoor : lvl.door = some d)
    (hfire : RIGHT_SCREEN_LIMIT ≤ p.rect.right ∨ p.rect.left ≤ LEFT_SCREEN_LIMIT) :
    ∃ p2 lvl2, updateLevelShift p lvl = some (p2, lvl2) ∧
      (if RIGHT_SCREEN_LIMIT ≤ p.rect.right then p2.rect.right = RIGHT_SCREEN_LIMIT
       else p2.rect.left = LEFT_SCREEN_LIMIT) ∧
      (let sh := if RIGHT_SCREEN_LIMIT ≤ p.rect.right
                 then RIGHT_SCREEN_LIMIT - p.rect.right
                 else LEFT_SCREEN_LIMIT - p.rect.left
       lvl2.platforms = lvl.platforms.map (shiftRect sh) ∧
       lvl2.coins = lvl.coins.map (shiftRect sh) ∧
       lvl2.enemies = lvl.enemies.map (shiftEnemy sh) ∧
       lvl2.platform_limits = lvl.platform_limits.map (shiftRect sh) ∧
       lvl2.door = some (shiftRect sh d) ∧
       lvl2.player_start_pos = (lvl.player_start_pos.1 + sh, lvl.player_start_pos.2) ∧
       lvl2.level_shift = lvl.level_shift + sh) := by
  have hsome : ∀ sh : Int, shiftLevel lvl sh = some
      { platforms := lvl.platforms.map (shiftRect sh)
        coins := lvl.coins.map (shiftRect sh)
        enemies := lvl.enemies.map (shiftEnemy sh)
        platform_limits := lvl.platform_limits.map (shiftRect sh)
        door := some (shiftRect sh d)
        player_start_pos := (lvl.player_start_pos.1 + sh, lvl.player_start_pos.2)
        level_shift := lvl.level_shift + sh
        level_size := lvl.level_size } := by
    intro sh
    unfold shiftLevel
    rw [hdoor]
  by_cases hr : RIGHT_SCREEN_LIMIT ≤ p.rect.right
  · have heq : updateLevelShift p lvl = some
        ({ p with rect := { p.rect with x := RIGHT_SCREEN_LIMIT - p.rect.w } },
         { platforms := lvl.platforms.map (shiftRect (RIGHT_SCREEN_LIMIT - p.rect.right))
           coins := lvl.coins.map (shiftRect (RIGHT_SCREEN_LIMIT - p.rect.right))
           enemies := lvl.enemies.map (shiftEnemy (RIGHT_SCREEN_LIMIT - p.rect.right))
           platform_limits :=
             lvl.platform_limits.map (shiftRect (RIGHT_SCREEN_LIMIT - p.rect.right))
           door := some (shiftRect (RIGHT_SCREEN_LIMIT - p.rect.right) d)
           player_start_pos := (lvl.player_start_pos.1 + (RIGHT_SCREEN_LIMIT - p.rect.right),
                                lvl.player_start_pos.2)
           level_shift := lvl.level_shift + (RIGHT_SCREEN_LIMIT - p.rect.right)
           level_size := lvl.level_size }) := by
      unfold updateLevelShift
      rw [if_pos hr]
      show ((shiftLevel lvl (-(p.rect.right - RIGHT_SCREEN_LIMIT))).map fun l =>
        ({ p with rect := { p.rect with x := RIGHT_SCREEN_LIMIT - p.rect.w } }, l)) = _
      rw [show -(p.rect.right - RIGHT_SCREEN_LIMIT) = RIGHT_SCREEN_LIMIT - p.rect.right by
        omega]
      rw [hsome]
      rfl
    refine ⟨_, _, heq, ?_, ?_⟩
    · rw [if_pos hr]
      show RIGHT_SCREEN_LIMIT - p.rect.w + p.rect.w = RIGHT_SCREEN_LIMIT
      omega
    · simp only [if_pos hr]
      exact ⟨trivial, trivial, trivial, trivial, trivial, trivial, trivial⟩
  · have hl : p.rect.left ≤ LEFT_SCREEN_LIMIT := hfire.resolve_left hr
    have heq : updateLevelShift p lvl = some
        ({ p with rect := { p.rect with x := LEFT_SCREEN_LIMIT } },
         { platforms := lvl.platforms.map (shiftRect (LEFT_SCREEN_LIMIT - p.rect.left))
           coins := lvl.coins.map (shiftRect (LEFT_SCREEN_LIMIT - p.rect.left))
           enemies := lvl.enemies.map (shiftEnemy (LEFT_SCREEN_LIMIT - p.rect.left))
           platform_limits :=
             lvl.platform_limits.map (shiftRect (LEFT_SCREEN_LIMIT - p.rect.left))
           door := some (shiftRect (LEFT_SCREEN_LIMIT - p.rect.left) d)
           player_start_pos := (lvl.player_start_pos.1 + (LEFT_SCREEN_LIMIT - p.rect.left),
                                lvl.player_start_pos.2)
           level_shift := lvl.level_shift + (LEFT_SCREEN_LIMIT - p.rect.left)
           level_size := lvl.level_size }) := by
      unfold updateLevelShift
      rw [if_neg hr, if_pos hl]
      show ((shiftLevel lvl (LEFT_SCREEN_LIMIT - p.rect.left)).map fun l =>
        ({ p with rect := { p.rect with x := LEFT_SCREEN_LIMIT } }, l)) = _
      rw [hsome]
      rfl
    refine ⟨_, _, heq, ?_, ?_⟩
    · rw [if_neg hr]
      rfl
    · simp only [if_neg hr]
      exact ⟨trivial, trivial, trivial, trivial, trivial, trivial, trivial⟩

/-- C4 witness: a concrete right-limit crossing on a concrete level with a
door gets clamped and shifted atomically. -/
theorem scroll_shift_atomic_witness :
    (let p : Player := { rect := ⟨640, 0, 20, 20⟩, moving_right := true, moving_left := false,
                         on_ground := false, change_x := 5, change_y := 1 }
     let lvl : Level :=
       { platforms := [⟨0, 450, 50, 50⟩], coins := [⟨30, 30, 30, 30⟩]
         enemies := [{ rect := ⟨5, 5, 5, 5⟩, change_x := 3, top_limit := 15 }]
         platform_limits := [⟨9, 9, 50, 50⟩], door := some ⟨500, 400, 40, 100⟩
         player_start_pos := (50, 450), level_shift := 0, level_size := 100 }
     ∃ p2 lvl2, updateLevelShift p lvl = some (p2, lvl2) ∧
       (if RIGHT_SCREEN_LIMIT ≤ p.rect.right then p2.rect.right = RIGHT_SCREEN_LIMIT
        else p2.rect.left = LEFT_SCREEN_LIMIT) ∧
       (let sh := if RIGHT_SCREEN_LIMIT ≤ p.rect.right
                  then RIGHT_SCREEN_LIMIT - p.rect.right
                  else LEFT_SCREEN_LIMIT - p.rect.left
        lvl2.platforms = lvl.platforms.map (shiftRect sh) ∧
        lvl2.coins = lvl.coins.map (shiftRect sh) ∧
        lvl2.enemies = lvl.enemies.map (shiftEnemy sh) ∧
        lvl2.platform_limits = lvl.platform_limits.map (shiftRect sh) ∧
        lvl2.door = some (shiftRect sh ⟨500, 400, 40, 100⟩) ∧
        lvl2.player_start_pos = (lvl.player_start_pos.1 + sh, lvl.player_start_pos.2) ∧
        lvl2.level_shift = lvl.level_shift + sh)) := by
  exact scroll_shift_atomic _ _ _ rfl (Or.inl (by decide))

/-! ### Claims about level construction -/

/-- C7 counterexample: on a pattern whose last row is not the longest, the
width the code computes (from the last row) differs from the width the
specification describes (from the longest row). -/
theorem level_size_not_longest_row :
    (createLevel 1 1 1 1 ["XX", "X"]).level_size ≠ longestRowSize ["XX", "X"] := by
  decide

/-- C7 (amended): for every nonempty pattern, the level width recorded by
the construction equals the length of the LAST row of the pattern times the
block size, and the right boundary wall is positioned starting exactly at
that width (a block with its left edge at the level size sits in the
platform collection). -/
theorem level_size_last_row (ew eh dw dh : Int) (pattern : List String)
    (h : pattern ≠ []) :
    (createLevel ew eh dw dh pattern).level_size =
      BLOCK_SIZE * ((pattern.getLast h).length : Int) ∧
    blockAt ((createLevel ew eh dw dh pattern).level_size, SCREEN_HEIGHT) ∈
      (createLevel ew eh dw dh pattern).platforms := by
  have hsize : (createLevel ew eh dw dh pattern).level_size =
      BLOCK_SIZE * ((pattern.getLast h).length : Int) := by
    show BLOCK_SIZE * ((pattern.getLastD "").length : Int) = _
    rw [List.getLastD_eq_getLast?, List.getLast?_eq_getLast pattern h]
    rfl
  refine ⟨hsize, ?_⟩
  show blockAt _ ∈ _ ++ leftLimitBlocks ++
    rightLimitBlocks (BLOCK_SIZE * ((pattern.getLastD "").length : Int))
  have hx : (createLevel ew eh dw dh pattern).level_size =
      BLOCK_SIZE * ((pattern.getLastD "").length : Int) := rfl
  rw [hx]
  apply List.mem_append_right
  unfold rightLimitBlocks
  rw [List.mem_flatMap]
  refine ⟨0, by norm_num, ?_⟩
  rw [List.mem_map]
  refine ⟨0, by norm_num, ?_⟩
  exact congrArg blockAt (by norm_num)

/-- C7 witness: the amended statement on a concrete two-row pattern. -/
theorem level_size_last_row_witness :
    (createLevel 1 1 1 1 ["X", "XX"]).level_size = BLOCK_SIZE * 2 ∧
      blockAt ((createLevel 1 1 1 1 ["X", "XX"]).level_size, SCREEN_HEIGHT) ∈
        (createLevel 1 1 1 1 ["X", "XX"]).platforms := by
  exact level_size_last_row 1 1 1 1 ["X", "XX"] (by decide)

/-! ### Claims about axis-separated collision resolution -/

/-- C3 counterexample: a fast fall (gravity is uncapped, so the vertical
speed can exceed a block) onto two vertically stacked blocks, with nonzero
horizontal and vertical velocity components.  The first hit in the list
clamps the player to the lower block and zeroes the vertical speed, which
disables the clamp against the upper block, so after vertical resolution
the player still overlaps a platform of the level. -/
theorem vertical_resolution_overlap_counterexample :
    (let p : Player := { rect := ⟨100, 365, 30, 30⟩, moving_right := true,
                         moving_left := false, on_ground := false,
                         change_x := 0, change_y := 593 / 10 }
     let plats : List Rect := [⟨100, 450, 50, 50⟩, ⟨100, 400, 50, 50⟩]
     (playerPhase1 p).change_x ≠ 0 ∧
       (playerPhase3 p plats).change_y ≠ 0 ∧
       (⟨100, 400, 50, 50⟩ : Rect) ∈ plats ∧
       collideRect (playerUpdate p plats).rect ⟨100, 400, 50, 50⟩ = true) := by
  norm_num [playerUpdate, playerPhase3, playerPhase2, playerPhase1, Player.changeSpeed,
    Player.applyGravity, Player.moveX, Player.moveY, Player.checkHorizontalCollisions,
    Player.checkVerticalCollisions, collideRect, hClampStep, vClampStep, ratTrunc,
    List.filter, List.foldl, player_speed, Rat.floor_def']

/-- C3 (amended): with a nonzero horizontal speed, horizontal resolution
leaves the player clear of the platform it was clamped to last (the final
element of the hit list); with a nonzero vertical speed, vertical
resolution leaves the player clear of the platform it was clamped to first
(the first element of the hit list — the first clamp zeroes the vertical
speed, which disables every later clamp).  In particular, when at most one
platform is hit on an axis the resolved axis is overlap-free; with several
simultaneously overlapping platforms the other hit platforms may remain
overlapping. -/
theorem axis_resolution_clamped_platform_free (p : Player) (plats : List Rect) :
    ((playerPhase1 p).change_x ≠ 0 →
      ∀ (l : List Rect) (a : Rect), hHits p plats = l ++ [a] →
        collideRect (playerPhase2 p plats).rect a = false) ∧
    ((playerPhase3 p plats).change_y ≠ 0 →
      ∀ (a : Rect) (t : List Rect), vHits p plats = a :: t →
        collideRect (playerUpdate p plats).rect a = false) := by
  constructor
  · intro hcx l a hdec
    show collideRect ((hHits p plats).foldl hClampStep (playerPhase1 p)).rect a = false
    rw [hdec, List.foldl_append, List.foldl_cons, List.foldl_nil]
    apply hClampStep_no_overlap
    rw [foldl_hClampStep_change_x]
    exact hcx
  · intro hcy a t hdec
    show collideRect ((vHits p plats).foldl vClampStep (playerPhase3 p plats)).rect a = false
    rw [hdec, List.foldl_cons, foldl_vClampStep_of_zero _ _ (vClampStep_change_y _ _)]
    exact vClampStep_no_overlap _ _ hcy

/-- C3 witness: a concrete tick with one platform hit on each axis, where
both resolved axes end overlap-free. -/
theorem axis_resolution_clamped_platform_free_witness :
    (let p : Player := { rect := ⟨75, 420, 30, 30⟩, moving_right := true,
                         moving_left := false, on_ground := false,
                         change_x := 0, change_y := 33 / 10 }
     let plats : List Rect := [⟨100, 400, 50, 50⟩, ⟨50, 450, 50, 50⟩]
     collideRect (playerPhase2 p plats).rect ⟨100, 400, 50, 50⟩ = false ∧
       collideRect (playerUpdate p plats).rect ⟨50, 450, 50, 50⟩ = false) := by
  refine ⟨(axis_resolution_clamped_platform_free _ _).1 ?_ [] _ ?_,
          (axis_resolution_clamped_platform_free _ _).2 ?_ _ [] ?_⟩ <;>
    norm_num [playerPhase3, playerPhase2, playerPhase1, Player.changeSpeed,
      Player.applyGravity, Player.moveX, Player.moveY, Player.checkHorizontalCollisions,
      Player.checkVerticalCollisions, collideRect, hClampStep, vClampStep, ratTrunc,
      List.filter, List.foldl, player_speed, hHits, vHits, Rat.floor_def']

/-- C6: the ground flag is reset to false before the vertical move of every
tick, and after the tick it is true exactly when the vertical resolution of
that same tick clamped a downward fall (positive vertical speed at the
start of vertical resolution) onto some hit platform. -/
theorem on_ground_iff_down_clamp (p : Player) (plats : List Rect) :
    (playerPhase3 p plats).on_ground = false ∧
    ((playerUpdate p plats).on_ground = true ↔
      (0 < (playerPhase3 p plats).change_y ∧ vHits p plats ≠ [])) := by
  refine ⟨rfl, ?_⟩
  show ((vHits p plats).foldl vClampStep (playerPhase3 p plats)).on_ground = true ↔ _
  cases hv : vHits p plats with
  | nil =>
    rw [List.foldl_nil, playerPhase3_on_ground]
    simp
  | cons a t =>
    rw [List.foldl_cons]
    rcases lt_trichotomy (playerPhase3 p plats).change_y 0 with hlt | heq | hgt
    · have hstep : vClampStep (playerPhase3 p plats) a =
          { playerPhase3 p plats with
            rect := { (playerPhase3 p plats).rect with y := a.y + a.h }
            change_y := 0 } := by
        unfold vClampStep
        rw [if_neg (lt_asymm hlt), if_pos hlt]
      rw [hstep, foldl_vClampStep_of_zero _ _ rfl]
      have hog : ({ playerPhase3 p plats with
          rect := { (playerPhase3 p plats).rect with y := a.y + a.h }
          change_y := 0 } : Player).on_ground = false := playerPhase3_on_ground p plats
      rw [hog]
      simp only [Bool.false_eq_true, false_iff]
      rintro ⟨h1, -⟩
      exact lt_asymm hlt h1
    · rw [vClampStep_of_zero _ _ heq, foldl_vClampStep_of_zero _ _ heq,
        playerPhase3_on_ground]
      simp only [Bool.false_eq_true, false_iff]
      rintro ⟨h1, -⟩
      rw [heq] at h1
      exact lt_irrefl 0 h1
    · have hstep : vClampStep (playerPhase3 p plats) a =
          { playerPhase3 p plats with
            rect := { (playerPhase3 p plats).rect with y := a.y - (playerPhase3 p plats).rect.h }
            on_ground := true
            change_y := 0 } := by
        unfold vClampStep
        rw [if_pos hgt]
      rw [hstep, foldl_vClampStep_of_zero _ _ rfl]
      simp [hgt]

/-! ### Claims about the stomp bounce -/

/-- C5: every stomp confirmed during a tick — a head contact while the
player descends, evaluated after the player update and the scroll step of
that tick — sets the player's vertical speed to the fixed impulse -7,
whatever the rest of the player state is (a descending player can never
carry the ground flag, so the bounce guard never blocks); the impulse is
distinct from and smaller in magnitude than the jump impulse -15. -/
theorem stomp_bounce_impulse
    (p0 : Player) (plats : List Rect) (lvl : Level) (p2 : Player) (lvl2 : Level)
    (contact : Enemy → Option (Int × Int)) (s : Session) (e : Enemy) (pt : Int × Int)
    (hshift : updateLevelShift (playerUpdate p0 plats) lvl = some (p2, lvl2))
    (hplayer : s.player = p2)
    (hfind : s.level.enemies.find? (fun en => (contact en).isSome) = some e)
    (hcontact : contact e = some pt)
    (htop : pt.2 ≤ e.top_limit)
    (hdesc : 0 < s.player.change_y) :
    (checkPlayerEnemyCollisions contact s).player.change_y = -7 ∧
    (∀ q : Player, q.on_ground = true → q.jump.change_y = -15) ∧ (7 : ℚ) < 15 := by
  have hpres := updateLevelShift_preserves _ _ _ _ hshift
  have hog : s.player.on_ground = false := by
    rw [hplayer, hpres.2]
    cases hgd : (playerUpdate p0 plats).on_ground with
    | false => rfl
    | true =>
      exfalso
      have hzero := playerUpdate_ground_change_y p0 plats hgd
      rw [hplayer, hpres.1, hzero] at hdesc
      exact lt_irrefl 0 hdesc
  have hres : checkPlayerEnemyCollisions contact s = enemyHit s e := by
    unfold checkPlayerEnemyCollisions
    simp only [hfind, hcontact]
    rw [if_pos ⟨htop, hdesc⟩]
  rw [hres]
  refine ⟨?_, ?_, by norm_num⟩
  · show s.player.bounce.change_y = -7
    unfold Player.bounce
    rw [hog]
    rfl
  · intro q hq
    unfold Player.jump
    rw [hq]
    rfl

/-- C5 witness: a concrete confirmed stomp right after a tick of falling in
free air sets the vertical speed to -7. -/
theorem stomp_bounce_impulse_witness :
    (let p0 : Player := { rect := ⟨300, 100, 30, 30⟩, moving_right := false,
                          moving_left := false, on_ground := false,
                          change_x := 0, change_y := 0 }
     let e : Enemy := { rect := ⟨0, 0, 10, 10⟩, change_x := 3, top_limit := 15 }
     let s : Session :=
       { stats := { lives_left := 5, score := 0, level := 0 }
         game_active := true
         game_over := false
         player := playerUpdate p0 []
         level := { emptyLevel with enemies := [e] } }
     (checkPlayerEnemyCollisions (fun _ => some (0, 3)) s).player.change_y = -7 ∧
       (∀ q : Player, q.on_ground = true → q.jump.change_y = -15) ∧ (7 : ℚ) < 15) := by
  refine stomp_bounce_impulse
    { rect := ⟨300, 100, 30, 30⟩, moving_right := false, moving_left := false,
      on_ground := false, change_x := 0, change_y := 0 }
    [] emptyLevel
    (playerUpdate { rect := ⟨300, 100, 30, 30⟩, moving_right := false, moving_left := false,
                    on_ground := false, change_x := 0, change_y := 0 } [])
    emptyLevel (fun _ => some (0, 3)) _
    { rect := ⟨0, 0, 10, 10⟩, change_x := 3, top_limit := 15 } (0, 3)
    ?_ rfl (by decide) rfl (by decide) ?_
  · show updateLevelShift _ _ = _
    unfold updateLevelShift
    rw [if_neg (by norm_num [playerUpdate, playerPhase3, playerPhase2, playerPhase1,
          Player.changeSpeed, Player.applyGravity, Player.moveX, Player.moveY,
          Player.checkHorizontalCollisions, Player.checkVerticalCollisions,
          List.filter, List.foldl, Rect.right, RIGHT_SCREEN_LIMIT, SCREEN_WIDTH,
          ratTrunc, Rat.floor_def']),
        if_neg (by norm_num [playerUpdate, playerPhase3, playerPhase2, playerPhase1,
          Player.changeSpeed, Player.applyGravity, Player.moveX, Player.moveY,
          Player.checkHorizontalCollisions, Player.checkVerticalCollisions,
          List.filter, List.foldl, Rect.left, LEFT_SCREEN_LIMIT,
          ratTrunc, Rat.floor_def'])]
  · norm_num [playerUpdate, playerPhase3, playerPhase2, playerPhase1,
      Player.changeSpeed, Player.applyGravity, Player.moveX, Player.moveY,
      Player.checkHorizontalCollisions, Player.checkVerticalCollisions,
      List.filter, List.foldl, ratTrunc, Rat.floor_def']

end Platformer
